import Mathlib

/-!
Verification development for `py-bas-canvas-inspector-automator`.

Shallow embedding of the repository's port-discovery helper (`helpers.py`,
`find_proc`), the Outlook captcha OCR polling loop and the site-flow
orchestration (`automator/automator.py`), and the OCR text normalisation
(`ocr/__init__.py`), together with theorems settling the specification
claims about them.

Python strings are modelled as Lean `String` / `List Char`; Python's
substring test (`in`), `str.startswith`, `str.strip`, `str.split` and
`int(...)` are re-implemented below on `List Char` so that every
definition is executable by the kernel.
-/

namespace CanvasInspector

/-- Python list/str helper: does `hay` start with `pre` (character lists)? -/
def startsWithList : List Char → List Char → Bool
  | _, [] => true
  | [], _ :: _ => false
  | h :: hs, n :: ns => h == n && startsWithList hs ns

/-- Python `needle in hay` on character lists: substring containment. -/
def hasSubList : List Char → List Char → Bool
  | [], needle => needle.isEmpty
  | c :: rest, needle => startsWithList (c :: rest) needle || hasSubList rest needle

/-- Python `needle in hay` for strings (substring containment, case-sensitive). -/
def pyIn (needle hay : String) : Bool :=
  hasSubList hay.data needle.data

/-- Python `hay.startswith(pre)` for strings. -/
def pyStartsWith (hay pre : String) : Bool :=
  startsWithList hay.data pre.data

/-- Python `hay.endswith(suf)` for strings. -/
def pyEndsWith (hay suf : String) : Bool :=
  startsWithList hay.data.reverse suf.data.reverse

/-!
Outlook captcha polling loop, from `Automator._grab_canvas_outlook`
(`automator/automator.py`, lines 458-479):

```python
while True:
    await asyncio.sleep(30)
    captcha_not_detected_checks = []
    for _ in range(3):
        await asyncio.sleep(5)
        screenshot_outlook_captcha = await self._save_temp_screenshot("outlook_captcha")
        text = ocr_image(screenshot_outlook_captcha, normalize_text=True)
        if "Please solve the puzzle" in text or "Use the arrows to " in text:
            captcha_not_detected_checks.append(False)
            continue
        captcha_not_detected_checks.append(True)
    if all(captcha_not_detected_checks):
        break
```

The screenshot/OCR pipeline is modelled as a stream `sample : Nat → String`
giving the OCR text of the n-th screenshot taken by the loop; batch `k`
consumes samples `3*k`, `3*k+1`, `3*k+2`.  Sleeps are irrelevant to the
claims and dropped.  The loop itself has no bound, so the embedding takes
explicit fuel (a bound on the number of batches) and returns `some t` when
the loop breaks having taken `t` samples in total, `none` when the fuel
runs out first.
-/

/-- Marker test of one OCR sample, exactly the condition of line 469:
`"Please solve the puzzle" in text or "Use the arrows to " in text`. -/
def captchaDetected (text : String) : Bool :=
  pyIn "Please solve the puzzle" text || pyIn "Use the arrows to " text

/-- One batch of the inner `for _ in range(3)` loop: the
`captcha_not_detected_checks` list built from samples `3*k .. 3*k+2`. -/
def batchChecks (sample : Nat → String) (k : Nat) : List Bool :=
  (List.range 3).map fun i => if captchaDetected (sample (3 * k + i)) then false else true

/-- The `while True` loop, one recursive call per batch, starting at batch
index `k`.  Returns `some t` (with `t` the total number of samples taken,
counted from batch 0) when `all(captcha_not_detected_checks)` breaks the
loop, `none` when `fuel` batches pass without a break. -/
def outlookPollAux (sample : Nat → String) : Nat → Nat → Option Nat
  | 0, _ => none
  | fuel + 1, k =>
    let checks := batchChecks sample k
    if checks.all (fun b => b) then some (3 * (k + 1))
    else outlookPollAux sample fuel (k + 1)

/-- The Outlook captcha polling loop, started at its first batch. -/
def outlookPoll (sample : Nat → String) (fuel : Nat) : Option Nat :=
  outlookPollAux sample fuel 0

/-!
Port discovery, from `helpers.py` (`find_proc`, lines 14-52).

The live `psutil` process table is modelled as a list of entries, each
recording the process's own name and command line, its parent's name and
command line (`Process.parent()` is modelled as always available; the
claims under verification do not exercise the parent-less case), and its
direct children (`children(recursive=False)`).  Python exceptions raised
while parsing a command line (`ValueError` from tuple unpacking of
`line.split("=")` or from `int(...)`) are modelled with `Except`.
-/

/-- Name and command line of one process, as read through `psutil`. -/
structure ProcInfo where
  name : String
  cmdline : List String
  deriving DecidableEq, Repr

/-- One entry of the process table: a process, its parent, its children. -/
structure ProcEntry where
  info : ProcInfo
  parent : ProcInfo
  children : List ProcInfo
  deriving DecidableEq, Repr

/-- Python exception surfaced by `find_proc` while parsing a command line. -/
inductive PyErr where
  | valueError
  deriving DecidableEq, Repr

/-- Python whitespace characters stripped by `str.strip()` (ASCII range;
OCR output and command lines contain no further Unicode whitespace). -/
def pyIsSpace (c : Char) : Bool :=
  c == ' ' || c == '\t' || c == '\n' || c == '\r' || c == '\x0b' || c == '\x0c'

/-- Python `str.strip()` on a character list. -/
def pyStrip (l : List Char) : List Char :=
  ((l.dropWhile pyIsSpace).reverse.dropWhile pyIsSpace).reverse

/-- Python `s.split(sep)` for a one-character separator. -/
def splitOnChar (sep : Char) : List Char → List (List Char)
  | [] => [[]]
  | c :: rest =>
    if c == sep then [] :: splitOnChar sep rest
    else
      match splitOnChar sep rest with
      | [] => [[c]]
      | g :: gs => (c :: g) :: gs

/-- Digit-string value accumulator for `int(...)`. -/
def digitsVal : List Char → Nat → Option Nat
  | [], acc => some acc
  | c :: rest, acc =>
    if c.isDigit then digitsVal rest (10 * acc + (c.toNat - '0'.toNat)) else none

/-- Python `int(s)` on a decimal literal: strips whitespace, then an
optional sign followed by at least one digit (digit-group underscores are
not modelled; no command line under verification uses them). -/
def pyInt (l : List Char) : Option Int :=
  match pyStrip l with
  | '-' :: rest =>
    if rest.isEmpty then none else (digitsVal rest 0).map fun n => -(n : Int)
  | '+' :: rest =>
    if rest.isEmpty then none else (digitsVal rest 0).map fun n => (n : Int)
  | l' => if l'.isEmpty then none else (digitsVal l' 0).map fun n => (n : Int)

/-- Constant `WORKER_PROC_NAME` of `helpers.py`. -/
def WORKER_PROC_NAME : String := "Worker.exe"

/-- Constant `BROWSER_PROC_NAME` of `helpers.py`. -/
def BROWSER_PROC_NAME : String := "worker.exe"

/-- Constant `CANVAS_INSPECTOR_CMD_PATH` of `helpers.py`:
`os.path.join("appsremote", "CanvasInspector3")` on Windows. -/
def CANVAS_INSPECTOR_CMD_PATH : String := "appsremote\\CanvasInspector3"

/-- Body of the `for line in cmd_line` loop of `find_proc` for one line:
`none` means `continue` past this line, `some (.ok p)` means
`return int(...)` fired with value `p`, `some (.error _)` means the
unpacking of `line.split("=")` or `int(...)` raised `ValueError`. -/
def parsePortLine (line : String) : Option (Except PyErr Int) :=
  let l := pyStrip line.data
  if startsWithList l "--remote-debugging-port=".data then
    match splitOnChar '=' l with
    | [_, port] =>
      match pyInt port with
      | some p => some (Except.ok p)
      | none => some (Except.error PyErr.valueError)
    | _ => some (Except.error PyErr.valueError)
  else none

/-- The `for line in cmd_line` loop: first line that returns or raises. -/
def scanLines : List String → Option (Except PyErr Int)
  | [] => none
  | line :: rest =>
    match parsePortLine line with
    | some r => some r
    | none => scanLines rest

/-- The `for child in proc.children(recursive=False)` loop: skips children
not named `BROWSER_PROC_NAME`, otherwise scans their command lines. -/
def scanChildren : List ProcInfo → Option (Except PyErr Int)
  | [] => none
  | c :: rest =>
    if c.name == BROWSER_PROC_NAME then
      match scanLines c.cmdline with
      | some r => some r
      | none => scanChildren rest
    else scanChildren rest

/-- Body of the outer `for proc in psutil.process_iter()` loop for one
process: `none` means the loop moves on to the next process.  The
`found_proc` flag of the source (lines 30-35) is computed here exactly as
in the code and, exactly as in the code, never consulted afterwards: the
source only prints it. -/
def procStep (p : ProcEntry) : Option (Except PyErr Int) :=
  if p.info.name == WORKER_PROC_NAME then
    if p.parent.name != "FastExecuteScript.exe" then none
    else
      let _found_proc := p.parent.cmdline.any fun c => pyIn CANVAS_INSPECTOR_CMD_PATH c
      scanChildren p.children
  else none

/-- `find_proc` of `helpers.py`: first process whose step returns or
raises decides the result; an exhausted table yields the sentinel `0`. -/
def find_proc : List ProcEntry → Except PyErr Int
  | [] => Except.ok 0
  | p :: rest =>
    match procStep p with
    | some r => r
    | none => find_proc rest

/-!
DevTools attach, from `_url_to_ws_endpoint` (`automator/automator.py`,
lines 37-69).

The HTTP layer (`httpx.get`) is modelled as a function from the requested
URL to a result: either a connection error (`httpx.ConnectError`) or a
response carrying a status code and a parsed JSON body.  The body of the
DevTools `/json/version/` endpoint is a flat string-keyed JSON object, so
`json.loads(response.text)` is modelled as the already-parsed association
list (parse failures of `json.loads` are outside the claims under
verification).  The embedding additionally returns the list of URLs that
were requested, so that "performs no HTTP request" is a provable fact.
-/

/-- Value of one field of the parsed `/json/version/` JSON object. -/
inductive JVal where
  | str (s : String)
  | num (n : Int)
  | bool (b : Bool)
  | null
  deriving DecidableEq, Repr

/-- Python `str(...)` on a JSON field value. -/
def pyStr : JVal → String
  | JVal.str s => s
  | JVal.num n => toString n
  | JVal.bool true => "True"
  | JVal.bool false => "False"
  | JVal.null => "None"

/-- Python `dict[key]` lookup on the parsed JSON object. -/
def lookupField : List (String × JVal) → String → Option JVal
  | [], _ => none
  | (k, v) :: rest, key => if k == key then some v else lookupField rest key

/-- Result of one `httpx.get` call. -/
inductive HttpResult where
  | connectError
  | response (status : Nat) (body : List (String × JVal))
  deriving DecidableEq, Repr

/-- Outcome of `_url_to_ws_endpoint`: the returned string, or the raised
exception (`BrowserWebSocketConnectionError` on connection failure,
`ValueError` on a non-200 status, `KeyError` on a missing
`webSocketDebuggerUrl` field). -/
inductive WsResult where
  | ok (url : String)
  | connectionFailure
  | unexpectedResponse (status : Nat)
  | keyError
  deriving DecidableEq, Repr

/-- The `/json/version/` URL built on lines 51-52:
`endpoint_url` with a trailing slash ensured, then `json/version/`. -/
def wsHttpUrl (endpoint_url : String) : String :=
  (if pyEndsWith endpoint_url "/" then endpoint_url else endpoint_url ++ "/") ++ "json/version/"

/-- `_url_to_ws_endpoint` of `automator/automator.py`: the outcome paired
with the list of URLs fetched over HTTP during the call. -/
def url_to_ws_endpoint (get : String → HttpResult) (endpoint_url : String) :
    WsResult × List String :=
  if pyStartsWith endpoint_url "ws" then (WsResult.ok endpoint_url, [])
  else
    let http_url := wsHttpUrl endpoint_url
    match get http_url with
    | HttpResult.connectError => (WsResult.connectionFailure, [http_url])
    | HttpResult.response status body =>
      if status ≠ 200 then (WsResult.unexpectedResponse status, [http_url])
      else
        match lookupField body "webSocketDebuggerUrl" with
        | some v => (WsResult.ok (pyStr v), [http_url])
        | none => (WsResult.keyError, [http_url])

/-!
Orchestration, from `Automator.grab_canvas` (`automator/automator.py`,
lines 551-604).

Each of the four per-site flows either returns its success boolean or
raises: `BadProxyIPError`, or any other exception (Playwright timeouts
etc.).  The surrounding `_check_prerequisites`, `_clean_up` and
`_save_screenshot` calls touch only the browser and the filesystem and
are modelled as non-raising no-ops; the claims under verification
condition only on the flows' outcomes.
-/

/-- Outcome of one per-site flow coroutine. -/
inductive FlowOutcome where
  | ok (success : Bool)
  | badProxy
  | otherError
  deriving DecidableEq, Repr

/-- Python exception escaping `grab_canvas`. -/
inductive PyExc where
  | badProxyIP
  | otherError
  deriving DecidableEq, Repr

/-- Awaiting one flow: its boolean, or the exception it raises. -/
def flowRun : FlowOutcome → Except PyExc Bool
  | FlowOutcome.ok b => Except.ok b
  | FlowOutcome.badProxy => Except.error PyExc.badProxyIP
  | FlowOutcome.otherError => Except.error PyExc.otherError

/-- Lines 571-582: `canvas_capture_success = False`, then
`try: ... = await self._grab_canvas_epicgames() except BadProxyIPError:
pass` — a `BadProxyIPError` is swallowed and the recorded result stays
`False`; any other exception propagates. -/
def runEpic : FlowOutcome → Except PyExc Bool
  | FlowOutcome.ok b => Except.ok b
  | FlowOutcome.badProxy => Except.ok false
  | FlowOutcome.otherError => Except.error PyExc.otherError

/-- Outcomes of the four per-site flows of one `grab_canvas` run, in the
order the code awaits them. -/
structure SiteFlows where
  epicgames : FlowOutcome
  gmail : FlowOutcome
  vinted : FlowOutcome
  outlook : FlowOutcome
  deriving DecidableEq, Repr

/-- `grab_canvas` of `automator/automator.py`: Epic Games (with its
`BadProxyIPError` handler), then Gmail, Vinted and Outlook in sequence,
each appending to `capture_results`; finally `all(capture_results)`. -/
def grab_canvas (f : SiteFlows) : Except PyExc Bool :=
  match runEpic f.epicgames with
  | Except.error e => Except.error e
  | Except.ok r1 =>
    match flowRun f.gmail with
    | Except.error e => Except.error e
    | Except.ok r2 =>
      match flowRun f.vinted with
      | Except.error e => Except.error e
      | Except.ok r3 =>
        match flowRun f.outlook with
        | Except.error e => Except.error e
        | Except.ok r4 => Except.ok ([r1, r2, r3, r4].all fun b => b)

/-!
OCR text normalisation, from `ocr_image` (`ocr/__init__.py`, lines 58-71).

The image pipeline (`_preprocess_image` and
`pytesseract.image_to_string`) is pixel-level and external; its output is
modelled as the input string `raw` (the source's `text = ... or ""` is
the identity on strings: a non-empty string passes through and an empty
one is replaced by the empty string).  The two single-character
`str.replace` calls are modelled as character maps, which agree with
Python's substring replacement for one-character patterns.
-/

/-- `ocr_image` of `ocr/__init__.py`, as a function of the raw extracted
text: with `normalize_text` and a non-empty text, every `'\n'` and then
every `'\r'` is replaced by a space and the result is stripped. -/
def ocr_image (raw : String) (normalize_text : Bool) : String :=
  let text := raw
  if normalize_text && text != "" then
    let t1 := text.data.map fun c => if c == '\n' then ' ' else c
    let t2 := t1.map fun c => if c == '\r' then ' ' else c
    String.mk (pyStrip t2)
  else text

/-! ### Helper lemmas -/

/-- The checks list of one batch, written out. -/
lemma batchChecks_eq (sample : Nat → String) (k : Nat) :
    batchChecks sample k =
      [if captchaDetected (sample (3 * k + 0)) then false else true,
       if captchaDetected (sample (3 * k + 1)) then false else true,
       if captchaDetected (sample (3 * k + 2)) then false else true] := rfl

/-- A marker hit anywhere in a batch falsifies `all(captcha_not_detected_checks)`. -/
lemma batchChecks_all_false (sample : Nat → String) (k i : Nat) (hi : i < 3)
    (hd : captchaDetected (sample (3 * k + i)) = true) :
    (batchChecks sample k).all (fun b => b) = false := by
  rw [batchChecks_eq]
  interval_cases i <;> simp_all

/-- The poll loop only ever breaks with at least one full batch beyond its
starting batch index: a break reached from batch `k` reports at least
`3 * (k + 1)` samples. -/
lemma outlookPollAux_le (sample : Nat → String) :
    ∀ fuel k m, outlookPollAux sample fuel k = some m → 3 * (k + 1) ≤ m := by
  intro fuel
  induction fuel with
  | zero => intro k m h; simp [outlookPollAux] at h
  | succ n ih =>
    intro k m h
    rw [outlookPollAux] at h
    cases hb : (batchChecks sample k).all (fun b => b) with
    | true => simp [hb] at h; omega
    | false =>
      simp [hb] at h
      have := ih (k + 1) m h
      omega

/-! ### Claims C1 and C2: the Outlook captcha polling loop -/

/-- C1: a batch of 3 OCR samples in which at least one sample contains a
marker phrase does not let the Outlook polling loop declare Clear (break):
the whole batch is discarded and the loop runs a fresh batch of 3 new
samples (those of batch `k + 1`), so no sample result of the failed batch
carries over; in particular the loop does not break at this batch's
sample count. -/
theorem outlook_poll_marker_batch_retries (sample : Nat → String) (fuel k : Nat)
    (h : ∃ i, i < 3 ∧ captchaDetected (sample (3 * k + i)) = true) :
    outlookPollAux sample (fuel + 1) k = outlookPollAux sample fuel (k + 1) ∧
    outlookPollAux sample (fuel + 1) k ≠ some (3 * (k + 1)) := by
  obtain ⟨i, hi, hd⟩ := h
  have hall := batchChecks_all_false sample k i hi hd
  have hstep : outlookPollAux sample (fuel + 1) k = outlookPollAux sample fuel (k + 1) := by
    rw [outlookPollAux, hall]
    simp
  refine ⟨hstep, ?_⟩
  intro hcontra
  rw [hstep] at hcontra
  have := outlookPollAux_le sample fuel (k + 1) _ hcontra
  omega

/-- Sample stream for the C1 witness: only the second sample of the first
batch shows a captcha marker. -/
def sampleC1 : Nat → String :=
  fun n => if n == 1 then "xx Please solve the puzzle yy" else ""

/-- Witness for C1 at a concrete sample stream. -/
theorem outlook_poll_marker_batch_retries_witness :
    (∃ i, i < 3 ∧ captchaDetected (sampleC1 (3 * 0 + i)) = true) ∧
    (outlookPollAux sampleC1 (1 + 1) 0 = outlookPollAux sampleC1 1 (0 + 1) ∧
     outlookPollAux sampleC1 (1 + 1) 0 ≠ some (3 * (0 + 1))) :=
  ⟨⟨1, by decide, by decide⟩,
   outlook_poll_marker_batch_retries sampleC1 1 0 ⟨1, by decide, by decide⟩⟩

/-- C2: when every OCR sample is marker-free, the Outlook polling loop
declares Clear after exactly one full batch, having taken exactly 3
samples and no more. -/
theorem outlook_poll_clear_after_one_batch (sample : Nat → String) (fuel : Nat)
    (h : ∀ n, captchaDetected (sample n) = false) :
    outlookPoll sample (fuel + 1) = some 3 := by
  rw [outlookPoll, outlookPollAux]
  have hall : (batchChecks sample 0).all (fun b => b) = true := by
    rw [batchChecks_eq]
    simp [h]
  rw [hall]
  simp

/-- Sample stream for the C2 witness: every OCR sample is empty. -/
def sampleC2 : Nat → String := fun _ => ""

/-- Witness for C2 at a concrete sample stream. -/
theorem outlook_poll_clear_after_one_batch_witness :
    (∀ n, captchaDetected (sampleC2 n) = false) ∧ outlookPoll sampleC2 (0 + 1) = some 3 :=
  ⟨fun _ => rfl, outlook_poll_clear_after_one_batch sampleC2 0 fun _ => rfl⟩

/-! ### Claims C3, C4 and C5: `find_proc` -/

/-- A `Worker.exe` process under `FastExecuteScript.exe` whose parent
command line does NOT contain `CANVAS_INSPECTOR_CMD_PATH`, with a browser
child advertising port 9222. -/
def pairNoMarker9222 : ProcEntry where
  info := { name := "Worker.exe", cmdline := [] }
  parent := { name := "FastExecuteScript.exe",
              cmdline := ["C:\\FastExecuteScript.exe", "script.xml"] }
  children := [{ name := "worker.exe",
                 cmdline := ["worker.exe", "--remote-debugging-port=9222"] }]

/-- Process table for the C3 counterexample run. -/
def tableC3 : List ProcEntry := [pairNoMarker9222]

/-- C3: the path-marker requirement is NOT enforced by the code.  On a
table whose only worker/browser pair has no `appsremote\CanvasInspector3`
marker anywhere in the parent's command line, `find_proc` nevertheless
returns that pair's port 9222: the `found_proc` flag that `find_proc`
computes for the marker (helpers.py lines 30-35) is printed and never
consulted, so a pair lacking the marker yields a returned port, contrary
to the claim. -/
theorem find_proc_ignores_path_marker :
    (tableC3.map fun p => p.parent.cmdline.any fun c => pyIn CANVAS_INSPECTOR_CMD_PATH c)
        = [false] ∧
    find_proc tableC3 = Except.ok 9222 :=
  ⟨rfl, rfl⟩

/-- There is no `return` and no exception from the children loop when no
child carries the browser-process name. -/
lemma scanChildren_none (l : List ProcInfo) (h : ∀ c ∈ l, ¬ c.name = BROWSER_PROC_NAME) :
    scanChildren l = none := by
  induction l with
  | nil => rfl
  | cons c rest ih =>
    have hc := h c (List.mem_cons_self c rest)
    rw [scanChildren]
    rw [if_neg (by simpa using hc)]
    exact ih fun d hd => h d (List.mem_cons_of_mem c hd)

/-- C4: on a process table with no matching worker/browser process pair —
no process named `Worker.exe` with parent `FastExecuteScript.exe` and a
child named `worker.exe`, in particular any table with no process named
`Worker.exe` at all — `find_proc` runs to completion and returns the
sentinel `0`: the result is a normal return (`Except.ok`), never a raised
exception. -/
theorem find_proc_sentinel_when_no_pair :
    ∀ table : List ProcEntry,
      (∀ p ∈ table,
        ¬(p.info.name = WORKER_PROC_NAME ∧ p.parent.name = "FastExecuteScript.exe" ∧
          ∃ c ∈ p.children, c.name = BROWSER_PROC_NAME)) →
      find_proc table = Except.ok 0 := by
  intro table
  induction table with
  | nil => intro _; rfl
  | cons p rest ih =>
    intro h
    have hp := h p (List.mem_cons_self p rest)
    have hstep : procStep p = none := by
      rw [procStep]
      by_cases h1 : p.info.name = WORKER_PROC_NAME
      · rw [if_pos (by simpa using h1)]
        by_cases h2 : p.parent.name = "FastExecuteScript.exe"
        · rw [if_neg (by simpa using h2)]
          exact scanChildren_none p.children fun c hc hcn => hp ⟨h1, h2, c, hc, hcn⟩
        · rw [if_pos (by simpa using h2)]
      · rw [if_neg (by simpa using h1)]
    rw [find_proc, hstep]
    exact ih fun q hq => h q (List.mem_cons_of_mem p hq)

/-- Process table for the C4 witness: no process is named `Worker.exe`. -/
def tableC4 : List ProcEntry :=
  [{ info := { name := "chrome.exe", cmdline := ["chrome.exe"] }
     parent := { name := "explorer.exe", cmdline := [] }
     children := [] }]

/-- Witness for C4 at a concrete process table. -/
theorem find_proc_sentinel_when_no_pair_witness :
    (∀ p ∈ tableC4,
      ¬(p.info.name = WORKER_PROC_NAME ∧ p.parent.name = "FastExecuteScript.exe" ∧
        ∃ c ∈ p.children, c.name = BROWSER_PROC_NAME)) ∧
    find_proc tableC4 = Except.ok 0 :=
  ⟨by decide, find_proc_sentinel_when_no_pair tableC4 (by decide)⟩

/-- A marker-less `Worker.exe`/`worker.exe` pair advertising port 1111. -/
def pairNoMarker1111 : ProcEntry where
  info := { name := "Worker.exe", cmdline := [] }
  parent := { name := "FastExecuteScript.exe",
              cmdline := ["C:\\FastExecuteScript.exe", "other.xml"] }
  children := [{ name := "worker.exe",
                 cmdline := ["worker.exe", "--remote-debugging-port=1111"] }]

/-- A fully matching pair: parent command line contains the
`appsremote\CanvasInspector3` marker, browser child advertises 9222. -/
def pairMarker9222 : ProcEntry where
  info := { name := "Worker.exe", cmdline := [] }
  parent := { name := "FastExecuteScript.exe",
              cmdline := ["C:\\appsremote\\CanvasInspector3\\FastExecuteScript.exe"] }
  children := [{ name := "worker.exe",
                 cmdline := ["worker.exe", "--remote-debugging-port=9222"] }]

/-- Table with a single fully matching pair (the spec's synthetic test). -/
def tableC5good : List ProcEntry := [pairMarker9222]

/-- Table whose first name-matched pair lacks the marker while the second
pair carries it. -/
def tableC5mixed : List ProcEntry := [pairNoMarker1111, pairMarker9222]

/-- C5: on a table whose only pair carries the marker and advertises
`--remote-debugging-port=9222`, `find_proc` does return the integer 9222;
but on a table where the only MARKER-matching pair advertises 9222 and an
earlier name-matched pair without the marker advertises 1111, `find_proc`
returns 1111, not 9222 — iteration order wins over the marker because the
`found_proc` marker flag is computed and never consulted (same slip as in
C3). -/
theorem find_proc_first_pair_wins_marker_ignored :
    find_proc tableC5good = Except.ok 9222 ∧
    find_proc tableC5mixed = Except.ok 1111 ∧
    (tableC5mixed.map fun p => p.parent.cmdline.any fun c => pyIn CANVAS_INSPECTOR_CMD_PATH c)
        = [false, true] :=
  ⟨rfl, rfl, rfl⟩

/-! ### Claims C6 and C9: `_url_to_ws_endpoint` -/

/-- C6: for an endpoint URL not starting with `ws`, the function issues a
GET for `<url>/json/version/` and (a) on a 200 response whose JSON body
carries a string field `webSocketDebuggerUrl`, returns exactly that
string; (b) on a non-200 status, raises the unexpected-response error
instead of returning; (c) on a connection failure, raises the
connection-failure error. -/
theorem url_to_ws_endpoint_http_cases (get : String → HttpResult) (u : String)
    (h : pyStartsWith u "ws" = false) :
    (∀ body s, get (wsHttpUrl u) = HttpResult.response 200 body →
      lookupField body "webSocketDebuggerUrl" = some (JVal.str s) →
      url_to_ws_endpoint get u = (WsResult.ok s, [wsHttpUrl u])) ∧
    (∀ st body, get (wsHttpUrl u) = HttpResult.response st body → st ≠ 200 →
      url_to_ws_endpoint get u = (WsResult.unexpectedResponse st, [wsHttpUrl u])) ∧
    (get (wsHttpUrl u) = HttpResult.connectError →
      url_to_ws_endpoint get u = (WsResult.connectionFailure, [wsHttpUrl u])) := by
  refine ⟨?_, ?_, ?_⟩
  · intro body s hget hfield
    simp only [url_to_ws_endpoint, h, Bool.false_eq_true, if_false]
    rw [hget]
    simp [hfield, pyStr]
  · intro st body hget hst
    simp only [url_to_ws_endpoint, h, Bool.false_eq_true, if_false]
    rw [hget]
    simp [hst]
  · intro hget
    simp only [url_to_ws_endpoint, h, Bool.false_eq_true, if_false]
    rw [hget]

/-- HTTP world for the C6 witness, successful case. -/
def getOkC6 : String → HttpResult := fun _ =>
  HttpResult.response 200
    [("Browser", JVal.str "Chrome/116.0.5845.96"),
     ("webSocketDebuggerUrl", JVal.str "ws://127.0.0.1:9222/devtools/browser/abc")]

/-- HTTP world for the C6 witness, server-error case. -/
def get500C6 : String → HttpResult := fun _ => HttpResult.response 500 []

/-- HTTP world for the C6 witness, connection-failure case. -/
def getConnC6 : String → HttpResult := fun _ => HttpResult.connectError

/-- Witness for C6 at a concrete URL and three concrete HTTP worlds. -/
theorem url_to_ws_endpoint_http_cases_witness :
    pyStartsWith "http://127.0.0.1:9222" "ws" = false ∧
    url_to_ws_endpoint getOkC6 "http://127.0.0.1:9222"
      = (WsResult.ok "ws://127.0.0.1:9222/devtools/browser/abc",
         ["http://127.0.0.1:9222/json/version/"]) ∧
    url_to_ws_endpoint get500C6 "http://127.0.0.1:9222"
      = (WsResult.unexpectedResponse 500, ["http://127.0.0.1:9222/json/version/"]) ∧
    url_to_ws_endpoint getConnC6 "http://127.0.0.1:9222"
      = (WsResult.connectionFailure, ["http://127.0.0.1:9222/json/version/"]) :=
  ⟨rfl,
   (url_to_ws_endpoint_http_cases getOkC6 "http://127.0.0.1:9222" rfl).1 _
     "ws://127.0.0.1:9222/devtools/browser/abc" rfl rfl,
   (url_to_ws_endpoint_http_cases get500C6 "http://127.0.0.1:9222" rfl).2.1 500 [] rfl
     (by decide),
   (url_to_ws_endpoint_http_cases getConnC6 "http://127.0.0.1:9222" rfl).2.2 rfl⟩

/-- C9: an endpoint URL that starts with `ws` is returned unchanged, and
no HTTP request is made at all: the request log is empty for every HTTP
world, so the `/json/version/` lookup is skipped entirely. -/
theorem url_to_ws_endpoint_ws_passthrough (get : String → HttpResult) (u : String)
    (h : pyStartsWith u "ws" = true) :
    url_to_ws_endpoint get u = (WsResult.ok u, []) := by
  rw [url_to_ws_endpoint, if_pos (by simp [h])]

/-- Witness for C9 at a concrete `ws://` URL, in an HTTP world in which
every request would fail to connect. -/
theorem url_to_ws_endpoint_ws_passthrough_witness :
    pyStartsWith "ws://127.0.0.1:9222/devtools/browser/abc" "ws" = true ∧
    url_to_ws_endpoint getConnC6 "ws://127.0.0.1:9222/devtools/browser/abc"
      = (WsResult.ok "ws://127.0.0.1:9222/devtools/browser/abc", []) :=
  ⟨rfl,
   url_to_ws_endpoint_ws_passthrough getConnC6 "ws://127.0.0.1:9222/devtools/browser/abc" rfl⟩

/-! ### Claims C7 and C8: `grab_canvas` -/

/-- C7: when every per-site flow reports a success boolean (so
`grab_canvas` completes without an exception), the overall result is the
logical AND of the four per-site success booleans, in the order Epic
Games, Gmail, Vinted, Outlook. -/
theorem grab_canvas_all_and (f : SiteFlows) (b1 b2 b3 b4 : Bool)
    (h1 : f.epicgames = FlowOutcome.ok b1) (h2 : f.gmail = FlowOutcome.ok b2)
    (h3 : f.vinted = FlowOutcome.ok b3) (h4 : f.outlook = FlowOutcome.ok b4) :
    grab_canvas f = Except.ok (b1 && b2 && b3 && b4) := by
  rw [grab_canvas, h1, h2, h3, h4]
  show Except.ok ([b1, b2, b3, b4].all fun b => b) = Except.ok (b1 && b2 && b3 && b4)
  cases b1 <;> cases b2 <;> cases b3 <;> cases b4 <;> rfl

/-- Flow outcomes for the C7 witness: Vinted fails, the rest succeed. -/
def flowsC7 : SiteFlows where
  epicgames := FlowOutcome.ok true
  gmail := FlowOutcome.ok true
  vinted := FlowOutcome.ok false
  outlook := FlowOutcome.ok true

/-- Witness for C7 at concrete flow outcomes. -/
theorem grab_canvas_all_and_witness :
    flowsC7.epicgames = FlowOutcome.ok true ∧ flowsC7.gmail = FlowOutcome.ok true ∧
    flowsC7.vinted = FlowOutcome.ok false ∧ flowsC7.outlook = FlowOutcome.ok true ∧
    grab_canvas flowsC7 = Except.ok false :=
  ⟨rfl, rfl, rfl, rfl, grab_canvas_all_and flowsC7 true true false true rfl rfl rfl rfl⟩

/-- C8: a `BadProxyIPError` from the Epic Games flow is swallowed — the
run proceeds exactly as if the flow had returned `False` — while a
`BadProxyIPError` from the Gmail flow, or from the Vinted flow once the
Gmail flow has returned a boolean, is not caught and escapes
`grab_canvas`. -/
theorem grab_canvas_badproxy_policy (f : SiteFlows) :
    (f.epicgames = FlowOutcome.badProxy →
      grab_canvas f = grab_canvas { f with epicgames := FlowOutcome.ok false }) ∧
    (f.epicgames ≠ FlowOutcome.otherError → f.gmail = FlowOutcome.badProxy →
      grab_canvas f = Except.error PyExc.badProxyIP) ∧
    (f.epicgames ≠ FlowOutcome.otherError → (∃ b, f.gmail = FlowOutcome.ok b) →
      f.vinted = FlowOutcome.badProxy →
      grab_canvas f = Except.error PyExc.badProxyIP) := by
  refine ⟨?_, ?_, ?_⟩
  · intro h
    simp [grab_canvas, runEpic, h]
  · intro he hg
    cases hepic : f.epicgames with
    | otherError => exact absurd hepic he
    | ok b => rw [grab_canvas, hepic, hg]; rfl
    | badProxy => rw [grab_canvas, hepic, hg]; rfl
  · intro he hg hv
    obtain ⟨b2, hg⟩ := hg
    cases hepic : f.epicgames with
    | otherError => exact absurd hepic he
    | ok b => rw [grab_canvas, hepic, hg, hv]; rfl
    | badProxy => rw [grab_canvas, hepic, hg, hv]; rfl

/-- Flow outcomes for the C8 witness, first scenario: Epic Games and
Gmail both hit `BadProxyIPError`. -/
def flowsC8a : SiteFlows where
  epicgames := FlowOutcome.badProxy
  gmail := FlowOutcome.badProxy
  vinted := FlowOutcome.ok true
  outlook := FlowOutcome.ok true

/-- Flow outcomes for the C8 witness, second scenario: only Vinted hits
`BadProxyIPError`. -/
def flowsC8b : SiteFlows where
  epicgames := FlowOutcome.ok true
  gmail := FlowOutcome.ok true
  vinted := FlowOutcome.badProxy
  outlook := FlowOutcome.ok true

/-- Witness for C8 at concrete flow outcomes. -/
theorem grab_canvas_badproxy_policy_witness :
    flowsC8a.epicgames = FlowOutcome.badProxy ∧
    grab_canvas flowsC8a = grab_canvas { flowsC8a with epicgames := FlowOutcome.ok false } ∧
    flowsC8a.gmail = FlowOutcome.badProxy ∧
    grab_canvas flowsC8a = Except.error PyExc.badProxyIP ∧
    flowsC8b.vinted = FlowOutcome.badProxy ∧
    grab_canvas flowsC8b = Except.error PyExc.badProxyIP :=
  ⟨rfl,
   (grab_canvas_badproxy_policy flowsC8a).1 rfl,
   rfl,
   (grab_canvas_badproxy_policy flowsC8a).2.1 (by decide) rfl,
   rfl,
   (grab_canvas_badproxy_policy flowsC8b).2.2 (by decide) ⟨true, rfl⟩ rfl⟩

/-! ### Claim C10: `ocr_image` normalisation -/

/-- Dropping a satisfying run from the front keeps only original elements. -/
lemma mem_of_mem_dropWhile (p : Char → Bool) :
    ∀ (l : List Char) (c : Char), c ∈ l.dropWhile p → c ∈ l := by
  intro l
  induction l with
  | nil => intro c hc; simp at hc
  | cons a as ih =>
    intro c hc
    cases hp : p a with
    | true =>
      rw [List.dropWhile_cons, if_pos (by simp [hp])] at hc
      exact List.mem_cons_of_mem a (ih c hc)
    | false =>
      rw [List.dropWhile_cons, if_neg (by simp [hp])] at hc
      exact hc

/-- The first element surviving `dropWhile` falsifies the predicate. -/
lemma head?_dropWhile_false (p : Char → Bool) :
    ∀ (l : List Char) (c : Char), (l.dropWhile p).head? = some c → p c = false := by
  intro l
  induction l with
  | nil => intro c hc; simp [List.dropWhile] at hc
  | cons a as ih =>
    intro c hc
    cases hp : p a with
    | true =>
      rw [List.dropWhile_cons, if_pos (by simp [hp])] at hc
      exact ih c hc
    | false =>
      rw [List.dropWhile_cons, if_neg (by simp [hp])] at hc
      simp only [List.head?_cons, Option.some.injEq] at hc
      exact hc ▸ hp

/-- `dropWhile` keeps the last element of a list it does not empty. -/
lemma getLast?_dropWhile (p : Char → Bool) :
    ∀ l : List Char, l.dropWhile p ≠ [] → (l.dropWhile p).getLast? = l.getLast? := by
  intro l
  induction l with
  | nil => intro h; simp [List.dropWhile] at h
  | cons a as ih =>
    intro h
    cases hp : p a with
    | true =>
      rw [List.dropWhile_cons, if_pos (by simp [hp])] at h ⊢
      have has : as ≠ [] := by
        intro heq
        subst heq
        simp [List.dropWhile] at h
      rw [ih h]
      cases as with
      | nil => exact absurd rfl has
      | cons b bs => simp [List.getLast?_cons_cons]
    | false =>
      rw [List.dropWhile_cons, if_neg (by simp [hp])]

/-- Stripping keeps only characters of the original list. -/
lemma mem_pyStrip (l : List Char) (c : Char) (h : c ∈ pyStrip l) : c ∈ l := by
  rw [pyStrip, List.mem_reverse] at h
  have h1 := mem_of_mem_dropWhile pyIsSpace _ _ h
  rw [List.mem_reverse] at h1
  exact mem_of_mem_dropWhile pyIsSpace _ _ h1

/-- A stripped list never ends with a whitespace character. -/
lemma pyStrip_getLast (l : List Char) (c : Char) (h : (pyStrip l).getLast? = some c) :
    pyIsSpace c = false := by
  rw [pyStrip, List.getLast?_reverse] at h
  exact head?_dropWhile_false pyIsSpace _ c h

/-- A stripped list never starts with a whitespace character. -/
lemma pyStrip_head (l : List Char) (c : Char) (h : (pyStrip l).head? = some c) :
    pyIsSpace c = false := by
  rw [pyStrip, List.head?_reverse] at h
  have hne : (l.dropWhile pyIsSpace).reverse.dropWhile pyIsSpace ≠ [] := by
    intro heq
    rw [heq] at h
    simp at h
  rw [getLast?_dropWhile pyIsSpace _ hne, List.getLast?_reverse] at h
  exact head?_dropWhile_false pyIsSpace _ c h

/-- Replacing every `a` by `b ≠ a` leaves no `a` in the list. -/
lemma mem_map_replace_ne (a b : Char) (hb : ¬ b = a) (l : List Char) :
    ∀ c ∈ l.map (fun c => if c == a then b else c), ¬ c = a := by
  intro c hc
  obtain ⟨d, _, rfl⟩ := List.mem_map.1 hc
  by_cases hda : d = a
  · simpa [hda] using hb
  · simp [hda]

/-- Replacing every `a` by `b` introduces no character `x ≠ b` that was
absent before. -/
lemma mem_map_replace_keep (a b x : Char) (hbx : ¬ b = x) (l : List Char)
    (h : ∀ c ∈ l, ¬ c = x) :
    ∀ c ∈ l.map (fun c => if c == a then b else c), ¬ c = x := by
  intro c hc
  obtain ⟨d, hd, rfl⟩ := List.mem_map.1 hc
  by_cases hda : d = a
  · simpa [hda] using hbx
  · simpa [hda] using h d hd

/-- Unfolding of `ocr_image` in the normalising branch on non-empty text. -/
lemma ocr_image_true_eq (raw : String) (h : ¬ raw = "") :
    ocr_image raw true =
      String.mk (pyStrip ((raw.data.map fun c => if c == '\n' then ' ' else c).map
        fun c => if c == '\r' then ' ' else c)) := by
  simp only [ocr_image]
  rw [if_pos (by simp [h])]

/-- C10: with `normalize_text=True`, the string returned by `ocr_image`
contains no newline and no carriage-return character and neither starts
nor ends with a whitespace character (every `'\n'` and `'\r'` of the raw
extraction is replaced by a space and the result is stripped); with
`normalize_text=False` the raw extraction is returned unchanged. -/
theorem ocr_image_normalization (raw : String) :
    ocr_image raw false = raw ∧
    (∀ c ∈ (ocr_image raw true).data, ¬ c = '\n' ∧ ¬ c = '\r') ∧
    (∀ c, (ocr_image raw true).data.head? = some c → pyIsSpace c = false) ∧
    (∀ c, (ocr_image raw true).data.getLast? = some c → pyIsSpace c = false) := by
  by_cases hraw : raw = ""
  · subst hraw
    refine ⟨rfl, ?_, ?_, ?_⟩
    · intro c hc
      rw [show ocr_image "" true = "" from rfl] at hc
      simp at hc
    · intro c hc
      rw [show ocr_image "" true = "" from rfl] at hc
      simp at hc
    · intro c hc
      rw [show ocr_image "" true = "" from rfl] at hc
      simp at hc
  · have hdata : (ocr_image raw true).data =
        pyStrip ((raw.data.map fun c => if c == '\n' then ' ' else c).map
          fun c => if c == '\r' then ' ' else c) := by
      rw [ocr_image_true_eq raw hraw]
    refine ⟨rfl, ?_, ?_, ?_⟩
    · intro c hc
      rw [hdata] at hc
      have hmem := mem_pyStrip _ _ hc
      constructor
      · exact mem_map_replace_keep '\r' ' ' '\n' (by decide) _
          (mem_map_replace_ne '\n' ' ' (by decide) _) c hmem
      · exact mem_map_replace_ne '\r' ' ' (by decide) _ c hmem
    · intro c hc
      rw [hdata] at hc
      exact pyStrip_head _ c hc
    · intro c hc
      rw [hdata] at hc
      exact pyStrip_getLast _ c hc

/-- Witness for C10 at a concrete raw OCR extraction. -/
theorem ocr_image_normalization_witness :
    ocr_image " hi\nthere\r " false = " hi\nthere\r " ∧
    ocr_image " hi\nthere\r " true = "hi there" ∧
    'h' ∈ (ocr_image " hi\nthere\r " true).data ∧
    (¬ 'h' = '\n' ∧ ¬ 'h' = '\r') ∧
    ((ocr_image " hi\nthere\r " true).data.head? = some 'h' → pyIsSpace 'h' = false) ∧
    ((ocr_image " hi\nthere\r " true).data.getLast? = some 'e' → pyIsSpace 'e' = false) :=
  ⟨(ocr_image_normalization " hi\nthere\r ").1,
   rfl,
   by decide,
   (ocr_image_normalization " hi\nthere\r ").2.1 'h' (by decide),
   fun h => (ocr_image_normalization " hi\nthere\r ").2.2.1 'h' h,
   fun h => (ocr_image_normalization " hi\nthere\r ").2.2.2 'e' h⟩

end CanvasInspector
